import Mathlib

/-!
Shallow embedding of the silence/blackness detection core of
`intro_chapter_adder` (src/detect.rs, src/util.rs, src/main.rs).

Conventions used throughout:
* Durations (`std::time::Duration`) are modelled as natural numbers of
  nanoseconds; timestamps that the Rust code has already converted via
  `to_duration` appear here as such naturals.
* A Rust panic (`panic!`, `unreachable!`, the panic of `Duration`
  subtraction on underflow, the panic of `Duration::from_secs_f64` on a
  negative argument) is modelled as `Except.error (Failure.panic msg)`;
  an error returned from the function (`bail!`, i.e. the scan's `Err`
  result) is modelled as `Except.error (Failure.err msg)`.
* Frame metadata lookups (`meta.get "lavfi.silence_start"` etc.) are
  modelled as `Bool` presence flags, since the code only tests presence.
-/

/-- How a fallible path fails: `panic` models a Rust panic, which unwinds
the worker thread; `err` models an error value returned from the function
(`bail!`), i.e. the error result of that file's scan. -/
inductive Failure
  | panic (msg : String)
  | err (msg : String)
deriving DecidableEq

/-- True exactly for the `panic` form of a `Failure`. -/
def Failure.isPanic : Failure → Bool
  | .panic _ => true
  | .err _ => false

/-- Whether an `Except Failure` computation ended in a Rust panic. -/
def panicked {α : Type} : Except Failure α → Bool
  | .error f => f.isPanic
  | .ok _ => false

/-- `Candidate` from detect.rs: a spot that is both blank and silent.
`offset` and `length` are `Duration`s (nanoseconds here). -/
structure Candidate where
  offset : ℕ
  length : ℕ
deriving DecidableEq

/-- `PauseMatch` from detect.rs: the tri-state per-frame pause signal. -/
inductive PauseMatch
  | None
  | Start (d : ℕ)
  | End (d : ℕ)
deriving DecidableEq

/-- `DetectState` from detect.rs: the correlator's state over the two
media. `VideoAndAudio` carries the fields named `video` and `audio`
exactly as the source declares them. -/
inductive DetectState
  | None
  | Video (d : ℕ)
  | Audio (d : ℕ)
  | VideoAndAudio (video audio : ℕ)
deriving DecidableEq

/-- `StreamState` from detect.rs: the stream-completion tracker. -/
inductive StreamState
  | Ongoing
  | EndOfAudio
  | EndOfVideo
  | End
deriving DecidableEq

/-- `StreamState::end_of_audio` (detect.rs lines 64-70): `EndOfVideo`
becomes `End`; every other state becomes `EndOfAudio`. -/
def StreamState.end_of_audio : StreamState → StreamState
  | .EndOfVideo => .End
  | _ => .EndOfAudio

/-- `StreamState::end_of_video` (detect.rs lines 72-78): `EndOfAudio`
becomes `End`; every other state becomes `EndOfVideo`. -/
def StreamState.end_of_video : StreamState → StreamState
  | .EndOfAudio => .End
  | _ => .EndOfVideo

/-- `StreamState::reading_audio` (detect.rs lines 80-86). -/
def StreamState.reading_audio : StreamState → Bool
  | .End => false
  | .EndOfAudio => false
  | _ => true

/-- `StreamState::reading_video` (detect.rs lines 88-94). -/
def StreamState.reading_video : StreamState → Bool
  | .End => false
  | .EndOfVideo => false
  | _ => true

/-- `StreamState::at_end` (detect.rs lines 96-98). -/
def StreamState.at_end : StreamState → Bool
  | .End => true
  | _ => false

/-- The correlator update performed by the callback closure in
`Detector::detect` (detect.rs lines 120-145) for one audio `PauseMatch`.
Returns the new `blank_state` and the candidate pushed (if any); the
`unreachable!` arm is a panic, and `end - audio` on `Duration` panics
when `end < audio`. The comparison `length > threshold` is strict. -/
def audioStep (threshold : ℕ) (pause : PauseMatch) (s : DetectState) :
    Except Failure (DetectState × Option Candidate) :=
  match pause, s with
  | .None, s => .ok (s, none)
  | .Start d, .None => .ok (.Audio d, none)
  | .Start a, .Video v => .ok (.VideoAndAudio v a, none)
  | .End e, .VideoAndAudio video audio =>
      if e < audio then .error (.panic "overflow when subtracting durations")
      else
        let offset := max video audio
        let length := e - audio
        .ok (.Video video, if threshold < length then some ⟨offset, length⟩ else none)
  | .End _, .Audio _ => .ok (.None, none)
  | _, _ => .error (.panic "Unclear combination of audio circumstances")

/-- The correlator update performed by the video frame-metadata match in
`Detector::detect` (detect.rs lines 178-219) for one filtered video
frame. `blackStart`/`blackEnd` model the presence of the
`lavfi.black_start` / `lavfi.black_end` metadata keys; `ts` the frame's
timestamp (already converted to a duration). Note the source arm
`(DetectState::Audio(video), Some(_), None, Some(ts))` binds the payload
of `Audio` to a variable named `video` and stores the frame timestamp in
the `audio` field; this embedding reproduces that literally. The
fall-through arm is a `bail!`, i.e. a returned error. -/
def videoStep (threshold : ℕ) (blackStart blackEnd : Bool) (ts : Option ℕ)
    (s : DetectState) : Except Failure (DetectState × Option Candidate) :=
  match s, blackStart, blackEnd, ts with
  | s, false, false, _ => .ok (s, none)
  | s, true, true, _ => .ok (s, none)
  | .Video _, false, true, _ => .ok (.None, none)
  | .None, true, false, some t => .ok (.Video t, none)
  | .Audio video, true, false, some t => .ok (.VideoAndAudio video t, none)
  | .VideoAndAudio video audio, false, true, some t =>
      if t < video then .error (.panic "overflow when subtracting durations")
      else
        let offset := max video audio
        let length := t - video
        .ok (.Audio audio, if threshold < length then some ⟨offset, length⟩ else none)
  | _, _, _, _ => .error (.err "Unclear combination of video things")

/-- A pause event tagged with the medium that produced it, as routed by
the driver: audio events go through the callback closure, video events
through the frame-metadata match. -/
inductive MediumEvent
  | audio (m : PauseMatch)
  | video (blackStart blackEnd : Bool) (ts : Option ℕ)
deriving DecidableEq

/-- One correlator call: dispatch a tagged event to the corresponding
update of `blank_state` in `Detector::detect`. -/
def corrStep (threshold : ℕ) (ev : MediumEvent) (s : DetectState) :
    Except Failure (DetectState × Option Candidate) :=
  match ev with
  | .audio m => audioStep threshold m s
  | .video bs be ts => videoStep threshold bs be ts s

/-- Feeding a sequence of tagged pause events through the correlator,
collecting the emitted candidates in order. -/
def corrRun (threshold : ℕ) (evs : List MediumEvent) (s : DetectState) :
    Except Failure (DetectState × List Candidate) :=
  match evs with
  | [] => .ok (s, [])
  | ev :: rest => do
      let (s1, oc) ← corrStep threshold ev s
      let (s2, cs) ← corrRun threshold rest s1
      .ok (s2, oc.toList ++ cs)

/-- The length the code computes for a closing `End` in the `Both` state:
an audio `End e` on `VideoAndAudio v a` uses `e - a` (the `audio` field);
a video end-tag at `t` uses `t - v` (the `video` field). `none` for every
event/state pair that closes nothing. -/
def closingLen : MediumEvent → DetectState → Option ℕ
  | .audio (.End e), .VideoAndAudio _ a => some (e - a)
  | .video false true (some t), .VideoAndAudio v _ => some (t - v)
  | _, _ => none

/-- Output of the decode+filter engine for one audio packet, as
`SilenceDetector::frame_matches` consumes it: presence of the
`lavfi.silence_start` / `lavfi.silence_duration` metadata keys plus the
frame's timestamp (already converted to a duration). -/
structure AudioFrameData where
  silence_start : Bool
  silence_duration : Bool
  timestamp : Option ℕ
deriving DecidableEq

/-- A demultiplexed packet as the audio path of the core observes it:
its stream index, whether decoding it yields a complete frame, that
frame's timestamp (already converted), and the frames the filter graph
then outputs. The decode+filter engine itself is an external
collaborator; its outputs are inputs of the model. -/
structure Packet where
  stream : ℕ
  decode_ok : Bool
  decode_ts : Option ℕ
  frames : List AudioFrameData
deriving DecidableEq

/-- The mutable state of `SilenceDetector` (detect.rs lines 378-385),
without the decoder/filter handles, which live in the external engine. -/
structure SilenceDetector where
  audio_stream : ℕ
  at_end : Bool
  inside_pause : Bool
deriving DecidableEq

/-- `SilenceDetector::frame_matches` (detect.rs lines 454-477): classify
one filtered audio frame, updating `inside_pause`. The fall-through arm
is a `panic!`. -/
def frame_matches (d : SilenceDetector) (f : AudioFrameData) :
    Except Failure (SilenceDetector × PauseMatch) :=
  match d.inside_pause, f.silence_start, f.silence_duration, f.timestamp with
  | _, false, false, _ => .ok (d, .None)
  | _, true, true, _ => .ok (d, .None)
  | true, false, true, some ts => .ok ({ d with inside_pause := false }, .End ts)
  | false, true, false, some ts => .ok ({ d with inside_pause := true }, .Start ts)
  | _, _, _, _ => .error (.panic "Unclear combination of audio things")

/-- The `while let` loop over filter outputs inside
`PauseDetector::detected_pauses_from_packet`: classify each output frame
in order, threading `inside_pause` and collecting the `PauseMatch`es the
callback would receive. -/
def runFrames (d : SilenceDetector) :
    List AudioFrameData → Except Failure (SilenceDetector × List PauseMatch)
  | [] => .ok (d, [])
  | f :: rest => do
      let (d1, m) ← frame_matches d f
      let (d2, ms) ← runFrames d1 rest
      .ok (d2, m :: ms)

/-- `PauseDetector::detected_pauses_from_packet` (detect.rs lines
320-351): `Ok (some false)` for a packet of another stream (before any
state is touched), `Ok none` when the detector is already `at_end`;
otherwise decode, set `at_end` if the decoded frame's timestamp reaches
`untl`, classify every filter output frame, and return `Ok (some true)`.
The callback's invocations are returned as the event list. -/
def detected_pauses_from_packet (d : SilenceDetector) (p : Packet) (untl : ℕ) :
    Except Failure (SilenceDetector × List PauseMatch × Option Bool) :=
  if p.stream ≠ d.audio_stream then .ok (d, [], some false)
  else if d.at_end then .ok (d, [], none)
  else if p.decode_ok then
    let d1 := match p.decode_ts with
      | some ts => if untl ≤ ts then { d with at_end := true } else d
      | none => d
    do
      let (d2, ms) ← runFrames d1 p.frames
      .ok (d2, ms, some true)
  else .ok (d, [], some true)

/-- The driver state that the audio half of one iteration of the packet
loop in `Detector::detect` touches. -/
structure DriveState where
  blank_state : DetectState
  candidates : List Candidate
  state : StreamState
  audio : SilenceDetector
deriving DecidableEq

/-- Folding the audio callback over the events of one packet: each
`PauseMatch` updates `blank_state` via `audioStep`, appending any emitted
candidate. -/
def foldAudioEvents (threshold : ℕ) (bs : DetectState) (cands : List Candidate) :
    List PauseMatch → Except Failure (DetectState × List Candidate)
  | [] => .ok (bs, cands)
  | m :: rest => do
      let (bs1, oc) ← audioStep threshold m bs
      foldAudioEvents threshold bs1 (cands ++ oc.toList) rest

/-- The audio half of one iteration of the packet loop in
`Detector::detect` (detect.rs lines 116-149): run
`detected_pauses_from_packet` with the correlator callback, then — as the
source's `if let Some(false) = ...` does — apply
`state.end_of_audio()` exactly when the returned value is `some false`. -/
def driverAudioPhase (threshold untl : ℕ) (st : DriveState) (p : Packet) :
    Except Failure DriveState := do
  let (d1, ms, res) ← detected_pauses_from_packet st.audio p untl
  let (bs1, cands1) ← foldAudioEvents threshold st.blank_state st.candidates ms
  let s1 := match res with
    | some false => st.state.end_of_audio
    | _ => st.state
  .ok { blank_state := bs1, candidates := cands1, state := s1, audio := d1 }

/-- `to_duration` from util.rs:
`Duration::from_secs_f64((time_ref as f64 / time_base.1 as f64) * time_base.0 as f64)`.
The arithmetic is modelled over `ℚ`, which agrees with the `f64`
computation on the sign of the result (the property at issue: for the
magnitudes of an `i64` timestamp and `i32` time-base components, the
float division/multiplication cannot flip or lose the sign).
`Duration::from_secs_f64` panics on a negative or non-finite argument;
division by a zero denominator yields a non-finite or NaN float, hence
also a panic. -/
def to_duration (time_ref : ℤ) (num den : ℤ) : Except Failure ℚ :=
  if den = 0 then .error (.panic "can not convert float seconds to Duration")
  else
    let secs : ℚ := ((time_ref : ℚ) / (den : ℚ)) * (num : ℚ)
    if secs < 0 then .error (.panic "can not convert float seconds to Duration")
    else .ok secs

/-- `Duration::from_secs(1)` in nanoseconds. -/
def oneSecond : ℕ := 1000000000

/-- The hard-coded post-filter of the `DetectSilence` path in main.rs
(lines 111-116): keep a candidate only when
`cand.offset > Duration::from_secs(1) && cand.length > threshold`. -/
def cli_filter (threshold : ℕ) (c : Candidate) : Bool :=
  decide (oneSecond < c.offset) && decide (threshold < c.length)

/-- The candidate list the CLI reports or writes as chapters: the
detector's output post-filtered by `cli_filter`. -/
def filtered_candidates (threshold : ℕ) (cands : List Candidate) : List Candidate :=
  cands.filter (cli_filter threshold)

/-- Audio has been marked done in a `StreamState`. -/
def audioDone : StreamState → Bool
  | .EndOfAudio => true
  | .End => true
  | _ => false

/-- Video has been marked done in a `StreamState`. -/
def videoDone : StreamState → Bool
  | .EndOfVideo => true
  | .End => true
  | _ => false

/-- C3 counterexample: the claim that the completion lattice is monotone
and `End` (AllDone) terminal fails at the concrete reachable state `End`:
`end_of_audio` applied to `End` yields `EndOfAudio`, leaving `End` and
un-marking video as done. `End` is reachable from the default `Ongoing`
state by `end_of_audio` then `end_of_video`. -/
theorem c3_alldone_not_terminal :
    StreamState.End.end_of_audio = StreamState.EndOfAudio
      ∧ StreamState.End.end_of_audio ≠ StreamState.End
      ∧ StreamState.Ongoing.end_of_audio.end_of_video = StreamState.End
      ∧ videoDone StreamState.Ongoing.end_of_audio.end_of_video.end_of_audio = false := by
  decide

/-- C3 (amended): on every state other than `End`, both transitions
preserve each medium's done-mark; from `End` itself, `end_of_audio`
yields `EndOfAudio` and `end_of_video` yields `EndOfVideo`, un-marking
the other medium. -/
theorem c3_monotone_off_alldone (s : StreamState) :
    (s ≠ StreamState.End →
      (audioDone s = true →
          audioDone s.end_of_audio = true ∧ audioDone s.end_of_video = true)
        ∧ (videoDone s = true →
          videoDone s.end_of_audio = true ∧ videoDone s.end_of_video = true))
    ∧ StreamState.End.end_of_audio = StreamState.EndOfAudio
    ∧ StreamState.End.end_of_video = StreamState.EndOfVideo := by
  cases s <;> decide

/-- C3 witness: the amended theorem applied at `EndOfAudio`. -/
theorem c3_monotone_off_alldone_witness :
    audioDone StreamState.EndOfAudio.end_of_audio = true
      ∧ audioDone StreamState.EndOfAudio.end_of_video = true :=
  ((c3_monotone_off_alldone StreamState.EndOfAudio).1 (by decide)).1 (by decide)

/-- C8: `detected_pauses_from_packet` is a pure no-op in both
distinguishable cases: a packet of another stream returns `some false`
("not applicable") with the detector unchanged and no callback event;
a detector already `at_end` returns `none` ("finished") with the
detector unchanged and no callback event — so feeding the same packet
again changes nothing. -/
theorem c8_detector_noop_cases (d : SilenceDetector) (p : Packet) (untl : ℕ) :
    (p.stream ≠ d.audio_stream →
        detected_pauses_from_packet d p untl = .ok (d, [], some false))
      ∧ (p.stream = d.audio_stream → d.at_end = true →
        detected_pauses_from_packet d p untl = .ok (d, [], none)) := by
  constructor
  · intro h
    simp [detected_pauses_from_packet, h]
  · intro h hend
    simp [detected_pauses_from_packet, h, hend]

/-- C8 witness: both no-op cases at concrete inputs. -/
theorem c8_detector_noop_cases_witness :
    detected_pauses_from_packet ⟨0, false, false⟩ ⟨1, true, some 0, []⟩ 10
        = .ok (⟨0, false, false⟩, [], some false)
      ∧ detected_pauses_from_packet ⟨0, true, false⟩ ⟨0, true, some 0, []⟩ 10
        = .ok (⟨0, true, false⟩, [], none) :=
  ⟨(c8_detector_noop_cases ⟨0, false, false⟩ ⟨1, true, some 0, []⟩ 10).1 (by decide),
   (c8_detector_noop_cases ⟨0, true, false⟩ ⟨0, true, some 0, []⟩ 10).2 rfl rfl⟩

/-- C9: `to_duration` is not total: for every strictly negative timestamp
and positive time base, the computed seconds value is negative, so
`Duration::from_secs_f64` panics. -/
theorem c9_to_duration_negative_panics (t num den : ℤ)
    (ht : t < 0) (hnum : 0 < num) (hden : 0 < den) :
    to_duration t num den
      = .error (.panic "can not convert float seconds to Duration") := by
  have hden0 : den ≠ 0 := ne_of_gt hden
  have hsec : ((t : ℚ) / (den : ℚ)) * (num : ℚ) < 0 := by
    apply mul_neg_of_neg_of_pos
    · apply div_neg_of_neg_of_pos
      · exact_mod_cast ht
      · exact_mod_cast hden
    · exact_mod_cast hnum
  simp only [to_duration, if_neg hden0, if_pos hsec]

/-- C9 witness: the timestamp `-1` with time base `1/1000`. -/
theorem c9_to_duration_negative_panics_witness :
    to_duration (-1) 1 1000
      = .error (.panic "can not convert float seconds to Duration") :=
  c9_to_duration_negative_panics (-1) 1 1000 (by decide) (by decide) (by decide)

/-- C10: the CLI post-filter discards every candidate whose offset is at
most one second, regardless of the configured threshold. -/
theorem c10_offset_filter (threshold : ℕ) (cands : List Candidate)
    (c : Candidate) (h : c.offset ≤ oneSecond) :
    c ∉ filtered_candidates threshold cands := by
  intro hmem
  simp only [filtered_candidates] at hmem
  have hc : cli_filter threshold c = true := (List.mem_filter.mp hmem).2
  simp only [cli_filter, Bool.and_eq_true, decide_eq_true_eq] at hc
  exact absurd h (not_le.mpr hc.1)

/-- C10 witness: a candidate at exactly one second, five seconds long,
survives no threshold. -/
theorem c10_offset_filter_witness :
    (⟨1000000000, 5000000000⟩ : Candidate)
      ∉ filtered_candidates 0 [⟨1000000000, 5000000000⟩] :=
  c10_offset_filter 0 [⟨1000000000, 5000000000⟩] ⟨1000000000, 5000000000⟩
    (by decide)

/-- C1: the driver's audio half marks the completion tracker on the
wrong report. `detected_pauses_from_packet` returns `some false` for
"not applicable" and `none` for "finished", but the loop applies
`end_of_audio` exactly on `some false`: a packet of a different stream
(here stream 1 against audio stream 0) moves `Ongoing` to `EndOfAudio`,
while a detector that has reached `until` (reports "finished") leaves
the tracker untouched — the exact opposite of the claim. -/
theorem c1_driver_marks_on_not_applicable :
    driverAudioPhase 0 10 ⟨.None, [], .Ongoing, ⟨0, false, false⟩⟩ ⟨1, false, none, []⟩
        = .ok ⟨.None, [], .EndOfAudio, ⟨0, false, false⟩⟩
      ∧ driverAudioPhase 0 10 ⟨.None, [], .Ongoing, ⟨0, true, false⟩⟩ ⟨0, false, none, []⟩
        = .ok ⟨.None, [], .Ongoing, ⟨0, true, false⟩⟩ := by
  constructor <;> rfl

/-- C2: on the spec's own scenario (audio silent from 5 to 8, video dark
from 6 to 9, threshold 1) the emitted candidate's length is `2 = 8 - 6`,
not audio's own run `3 = 8 - 5`: because audio started first, the
`(DetectState::Audio(video), ...)` arm stored audio's start in the
`video` field and video's start in the `audio` field, and the closing
audio `End` subtracts the `audio` field. -/
theorem c2_length_uses_joining_start :
    corrRun 1 [.audio (.Start 5), .video true false (some 6),
        .audio (.End 8), .video false true (some 9)] .None
        = .ok (.None, [⟨6, 2⟩])
      ∧ (⟨6, 2⟩ : Candidate).length ≠ 8 - 5 := by
  constructor
  · rfl
  · decide

/-- C4: one correlator call emits a candidate exactly when the state is
`VideoAndAudio` (both media paused), the event is the closing `End` of a
medium, and the length the code computes strictly exceeds the threshold;
in particular a length exactly equal to the threshold emits nothing. -/
theorem c4_candidate_iff_both_over_threshold (thr : ℕ) (ev : MediumEvent)
    (s s' : DetectState) (oc : Option Candidate)
    (h : corrStep thr ev s = .ok (s', oc)) :
    oc.isSome = true ↔ ∃ L, closingLen ev s = some L ∧ thr < L := by
  cases ev with
  | audio m =>
    cases m with
    | None =>
      simp only [corrStep, audioStep, Except.ok.injEq, Prod.mk.injEq] at h
      simp [closingLen, ← h.2]
    | Start d =>
      cases s <;>
        simp only [corrStep, audioStep, Except.ok.injEq, Prod.mk.injEq,
          reduceCtorEq] at h <;>
        simp [closingLen, ← h.2]
    | End e =>
      cases s with
      | VideoAndAudio v a =>
        simp only [corrStep, audioStep] at h
        split at h
        · simp at h
        · simp only [Except.ok.injEq, Prod.mk.injEq] at h
          obtain ⟨h1, h2⟩ := h
          subst h2
          split <;> simp [closingLen] <;> omega
      | None =>
        simp only [corrStep, audioStep, reduceCtorEq] at h
      | Video d =>
        simp only [corrStep, audioStep, reduceCtorEq] at h
      | Audio d =>
        simp only [corrStep, audioStep, Except.ok.injEq, Prod.mk.injEq] at h
        simp [closingLen, ← h.2]
  | video bs be ts =>
    cases bs <;> cases be <;> cases s <;> cases ts <;>
      simp only [corrStep, videoStep, Except.ok.injEq, Prod.mk.injEq,
        reduceCtorEq] at h <;>
      try simp [closingLen, ← h.2]
    case false.true.VideoAndAudio.some v a t =>
      split at h
      · simp at h
      · simp only [Except.ok.injEq, Prod.mk.injEq] at h
        obtain ⟨h1, h2⟩ := h
        subst h2
        split <;> simp [closingLen] <;> omega

/-- C4 witness: a closing audio `End` at 8 in state `Both(5, 6)` against
threshold 1 emits a candidate, and the length the code computed exceeds
the threshold. -/
theorem c4_candidate_iff_both_over_threshold_witness :
    Option.isSome (some (⟨6, 2⟩ : Candidate)) = true
      ↔ ∃ L, closingLen (.audio (.End 8)) (.VideoAndAudio 5 6) = some L ∧ 1 < L :=
  c4_candidate_iff_both_over_threshold 1 (.audio (.End 8)) (.VideoAndAudio 5 6)
    (.Video 5) (some ⟨6, 2⟩) rfl

/-- C5: every candidate emitted while closing a `Both(v, a)` state has
offset `max v a`, the later of the two recorded start times, on both the
audio-closing and the video-closing path. -/
theorem c5_offset_is_max (thr : ℕ) (ev : MediumEvent) (v a : ℕ)
    (s' : DetectState) (c : Candidate)
    (h : corrStep thr ev (.VideoAndAudio v a) = .ok (s', some c)) :
    c.offset = max v a := by
  cases ev with
  | audio m =>
    cases m with
    | None =>
      simp only [corrStep, audioStep, Except.ok.injEq, Prod.mk.injEq,
        reduceCtorEq] at h
      exact h.2.elim
    | Start d => simp only [corrStep, audioStep, reduceCtorEq] at h
    | End e =>
      simp only [corrStep, audioStep] at h
      split at h
      · simp at h
      · simp only [Except.ok.injEq, Prod.mk.injEq] at h
        have := h.2
        split at this
        · cases this
          rfl
        · simp at this
  | video bs be ts =>
    cases bs <;> cases be <;> cases ts <;>
      simp only [corrStep, videoStep, Except.ok.injEq, Prod.mk.injEq,
        reduceCtorEq] at h <;>
      try exact h.2.elim
    case false.true.some t =>
      split at h
      · simp at h
      · simp only [Except.ok.injEq, Prod.mk.injEq] at h
        have := h.2
        split at this
        · cases this
          rfl
        · simp at this

/-- C5 witness: the spec's test — audio pausing since 10, video since 12
(state `Both(10, 12)`), closed by audio's `End` at 20 — yields offset
`12 = max 10 12`. -/
theorem c5_offset_is_max_witness :
    (⟨12, 8⟩ : Candidate).offset = max 10 12 :=
  c5_offset_is_max 0 (.audio (.End 20)) 10 12 (.Video 10) ⟨12, 8⟩ rfl

/-- The pause/state combinations the audio correlator callback treats as
a contract violation (its `unreachable!` arm). -/
def audioViolation : PauseMatch → DetectState → Bool
  | .None, _ => false
  | .Start _, .None => false
  | .Start _, .Video _ => false
  | .End _, .VideoAndAudio _ _ => false
  | .End _, .Audio _ => false
  | _, _ => true

/-- The tag/state combinations the video correlation match treats as a
contract violation (its `bail!` arm). -/
def videoViolation (bs be : Bool) (ts : Option ℕ) (s : DetectState) : Bool :=
  match s, bs, be, ts with
  | _, false, false, _ => false
  | _, true, true, _ => false
  | .Video _, false, true, _ => false
  | .None, true, false, some _ => false
  | .Audio _, true, false, some _ => false
  | .VideoAndAudio _ _, false, true, some _ => false
  | _, _, _, _ => true

/-- The tag combinations `frame_matches` treats as a contract violation
(its `panic!` arm). -/
def frameViolation (ip hs hd : Bool) (ts : Option ℕ) : Bool :=
  match ip, hs, hd, ts with
  | _, false, false, _ => false
  | _, true, true, _ => false
  | true, false, true, some _ => false
  | false, true, false, some _ => false
  | _, _, _, _ => true

/-- C6 counterexample: an `End` event for a medium not recorded as
paused (audio `End` in the `None` state) is a contract violation, yet it
panics (`unreachable!`) instead of surfacing as the scan's error result,
so it is not contained to that file's scan. -/
theorem c6_audio_violation_panics :
    panicked (audioStep 0 (.End 3) .None) = true
      ∧ audioStep 0 (.End 3) .None
        = .error (.panic "Unclear combination of audio circumstances") := by
  constructor <;> rfl

/-- C6 (amended): contract violations in the video correlation path
surface as a returned error (`bail!`), i.e. the scan's error result;
contract violations in the audio correlation path and in audio frame
classification are panics instead. -/
theorem c6_violation_surfacing (thr : ℕ) :
    (∀ bs be ts s, videoViolation bs be ts s = true →
        videoStep thr bs be ts s
          = .error (.err "Unclear combination of video things"))
      ∧ (∀ m s, audioViolation m s = true →
        audioStep thr m s
          = .error (.panic "Unclear combination of audio circumstances"))
      ∧ (∀ d f,
        frameViolation d.inside_pause f.silence_start f.silence_duration
            f.timestamp = true →
        frame_matches d f
          = .error (.panic "Unclear combination of audio things")) := by
  refine ⟨?_, ?_, ?_⟩
  · intro bs be ts s hv
    cases bs <;> cases be <;> cases s <;> cases ts <;>
      simp_all [videoViolation, videoStep]
  · intro m s hv
    cases m <;> cases s <;> simp_all [audioViolation, audioStep]
  · intro d f hv
    obtain ⟨str, ae, ip⟩ := d
    obtain ⟨hs, hd, ts⟩ := f
    cases ip <;> cases hs <;> cases hd <;> cases ts <;>
      simp_all [frameViolation, frame_matches]

/-- C6 witness: one violation of each kind at concrete inputs. -/
theorem c6_violation_surfacing_witness :
    videoStep 0 true false none .None
        = .error (.err "Unclear combination of video things")
      ∧ audioStep 0 (.Start 1) (.Audio 0)
        = .error (.panic "Unclear combination of audio circumstances")
      ∧ frame_matches ⟨0, false, true⟩ ⟨true, false, some 2⟩
        = .error (.panic "Unclear combination of audio things") :=
  ⟨(c6_violation_surfacing 0).1 true false none .None rfl,
   (c6_violation_surfacing 0).2.1 (.Start 1) (.Audio 0) rfl,
   (c6_violation_surfacing 0).2.2 ⟨0, false, true⟩ ⟨true, false, some 2⟩ rfl⟩

/-- C7: a frame carrying both the run-start and the run-end tag is
classified as `None` with no state change, in both the audio classifier
and the video match; and `None` is returned exactly when the frame
carries no tag or both tags, so the both-tags (too-short run) case is
the only tag-bearing case whose event is dropped. -/
theorem c7_both_tags_dropped :
    (∀ d f, f.silence_start = true → f.silence_duration = true →
        frame_matches d f = .ok (d, .None))
      ∧ (∀ d f d' m, frame_matches d f = .ok (d', m) → m = .None →
        f.silence_start = f.silence_duration)
      ∧ (∀ thr ts s, videoStep thr true true ts s = .ok (s, none)) := by
  refine ⟨?_, ?_, ?_⟩
  · intro d f h1 h2
    obtain ⟨hs, hd, ts⟩ := f
    cases ts <;> simp_all [frame_matches]
  · intro d f d' m h hm
    obtain ⟨str, ae, ip⟩ := d
    obtain ⟨hs, hd, ts⟩ := f
    cases ip <;> cases hs <;> cases hd <;> cases ts <;>
      simp_all [frame_matches]
  · intro thr ts s
    cases s <;> rfl

/-- C7 witness: both-tags frames at concrete inputs, and the
only-dropped-case direction applied to a concrete classification. -/
theorem c7_both_tags_dropped_witness :
    frame_matches ⟨0, false, false⟩ ⟨true, true, some 5⟩
        = .ok (⟨0, false, false⟩, .None)
      ∧ videoStep 0 true true (some 5) (.Video 3) = .ok (.Video 3, none)
      ∧ (⟨true, true, some 5⟩ : AudioFrameData).silence_start
        = (⟨true, true, some 5⟩ : AudioFrameData).silence_duration :=
  ⟨c7_both_tags_dropped.1 ⟨0, false, false⟩ ⟨true, true, some 5⟩ rfl rfl,
   c7_both_tags_dropped.2.2 0 (some 5) (.Video 3),
   c7_both_tags_dropped.2.1 ⟨0, false, false⟩ ⟨true, true, some 5⟩
     ⟨0, false, false⟩ .None rfl rfl⟩
